import Mathlib

/-!
Verification of `src/static/js/ratecards.js` (excis-billing).

The source file defines four functions — `renderProjectsRateCard`,
`renderDispatchRateCard`, `renderScheduledRateCard`, `renderDedicatedRateCard` —
each of which builds a fixed two-row HTML table header as a string literal and
assigns `<table>${header}<tbody></tbody></table>` to `container.innerHTML`.
The Dedicated variant additionally issues
`fetch(url).then(val => val.json()).then(val => console.log(val)).catch(e => console.log(e))`.

Embedding choices:
* The header markup of each function is embedded as the exact string literal
  from the source (`projectsHeader`, `dispatchHeader`, `scheduledHeader`,
  `dedicatedHeader`).
* To reason about the structure of the markup (rows, cells, spans, labels), a
  structured model of each header (lists of `HeaderCell`) is given together
  with a serializer `headerHtml`; bridge lemmas prove by evaluation that the
  serialization of the structured rows is byte-for-byte the source literal.
* The runtime effect of a call is modelled by `Outcome`: the container content
  after the call (`content`, with the container itself modelled as
  `Option String`, `none` standing for a null container), the list of network
  requests issued (`requests`), the console log entries eventually produced
  (`logs`), and whether a runtime error escaped the synchronous call
  (`thrown` — in JS, assigning `innerHTML` on a null container throws a
  TypeError that the renderer does not catch).
* The outcome of the network fetch is modelled by an environment
  `world : String → FetchResult` mapping a url to either a decoded JSON value
  (`ok`), a fetch rejection (`networkError`), or a body that fails JSON
  parsing (`jsonError`). The promise chain in the source logs the decoded
  value on success and logs the error (caught by the trailing `catch`) in the
  two failure cases; these log entries happen asynchronously on the event
  loop, so they occur even when the subsequent `innerHTML` assignment throws.
-/

set_option linter.unusedVariables false
set_option maxRecDepth 10000

namespace RateCards

/-- One `<th>` cell of a header row: either a cell carrying a `rowspan`
attribute, a cell carrying a `colspan` attribute, or a plain cell
(exactly the three cell shapes occurring in the source markup). -/
inductive HeaderCell where
  | rspan (n : Nat) (label : String)
  | cspan (n : Nat) (label : String)
  | plain (label : String)
deriving DecidableEq, Repr

/-- Serialize one cell exactly as the source writes it. -/
def serializeCell : HeaderCell → String
  | .rspan n label => "<th rowspan=\"" ++ toString n ++ "\">" ++ label ++ "</th>"
  | .cspan n label => "<th colspan=\"" ++ toString n ++ "\">" ++ label ++ "</th>"
  | .plain label => "<th>" ++ label ++ "</th>"

/-- Serialize one `<tr>` row of cells. -/
def serializeRow (cells : List HeaderCell) : String :=
  "<tr>" ++ String.join (cells.map serializeCell) ++ "</tr>"

/-- Serialize a `<thead>` holding exactly two rows, as every header in the
source does. -/
def headerHtml (row1 row2 : List HeaderCell) : String :=
  "<thead>" ++ serializeRow row1 ++ serializeRow row2 ++ "</thead>"

/-- Sum of the `colspan` values of the cells of a row that carry a colspan. -/
def colspanSum (cells : List HeaderCell) : Nat :=
  (cells.filterMap fun c => match c with
    | .cspan n _ => some n
    | _ => none).sum

/-- Header literal of `renderProjectsRateCard` (source line 3). -/
def projectsHeader : String :=
  "<thead><tr><th rowspan=\"2\">#</th><th rowspan=\"2\">Customer</th><th rowspan=\"2\">Region</th><th rowspan=\"2\">Country</th><th rowspan=\"2\">Supplier</th><th rowspan=\"2\">Currency</th><th rowspan=\"2\">Entity</th><th rowspan=\"2\">Payment</th><th colspan=\"5\">Short Term (Up to 3 Months)</th><th colspan=\"5\">Long Term (more than 3 Months) </th><th rowspan=\"2\">Status</th><th rowspan=\"2\">Action</th></tr><tr><th>Band 0</th><th>Band 1</th><th>Band 2</th><th>Band 3</th><th>Band 4</th><th>Band 0</th><th>Band 1</th><th>Band 2</th><th>Band 3</th><th>Band 4</th></tr></thead>"

/-- Header literal of `renderDispatchRateCard` (source line 11). -/
def dispatchHeader : String :=
  "<thead><tr><th rowspan=\"2\">#</th><th rowspan=\"2\">Customer</th><th rowspan=\"2\">Region</th><th rowspan=\"2\">Country</th><th rowspan=\"2\">Supplier</th><th rowspan=\"2\">Currency</th><th rowspan=\"2\">Entity</th><th rowspan=\"2\">Payment</th><th colspan=\"6\">Dispatch Tickets (incident) </th><th colspan=\"3\">Dispatch Ticket (IMAC) </th><th rowspan=\"2\">Status</th><th rowspan=\"2\">Action</th></tr><tr><th>4 Hours</th><th>SBD</th><th>NBD</th><th>2 BD</th><th>3 BD</th><th>Additional Hour</th><th>2BD</th><th>3 BD</th><th>4 BD</th></tr></thead>"

/-- Header literal of `renderScheduledRateCard` (source line 19). -/
def scheduledHeader : String :=
  "<thead><tr><th rowspan=\"2\">#</th><th rowspan=\"2\">Customer</th><th rowspan=\"2\">Region</th><th rowspan=\"2\">Country</th><th rowspan=\"2\">Supplier</th><th rowspan=\"2\">Currency</th><th rowspan=\"2\">Entity</th><th rowspan=\"2\">Payment</th><th colspan=\"3\">Full Day Visit (8hrs)</th><th colspan=\"3\">1/2 Day Visit (4hrs) </th><th rowspan=\"2\">Status</th><th rowspan=\"2\">Action</th></tr><tr><th>Band 0</th><th>Band 1</th><th>Band 2</th><th>Band 0</th><th>Band 1</th><th>Band 2</th></tr></thead>"

/-- Header literal of `renderDedicatedRateCard` (source line 28). -/
def dedicatedHeader : String :=
  "<thead><tr><th rowspan=\"2\">#</th><th rowspan=\"2\">Customer</th><th rowspan=\"2\">Region</th><th rowspan=\"2\">Country</th><th rowspan=\"2\">Supplier</th><th rowspan=\"2\">Currency</th><th rowspan=\"2\">Entity</th><th rowspan=\"2\">Payment</th><th colspan=\"2\">Band 0</th><th colspan=\"2\">Band 1</th><th colspan=\"2\">Band 2</th><th colspan=\"2\">Band 3</th><th colspan=\"2\">Band 4</th><th rowspan=\"2\">Status</th><th rowspan=\"2\">Action</th></tr><tr><th>With</th><th>Without</th><th>With</th><th>Without</th><th>With</th><th>Without</th><th>With</th><th>Without</th><th>With</th><th>Without</th></tr></thead>"

/-- Row 1 of the Projects header, structured. -/
def projectsRow1 : List HeaderCell :=
  [.rspan 2 "#", .rspan 2 "Customer", .rspan 2 "Region", .rspan 2 "Country",
   .rspan 2 "Supplier", .rspan 2 "Currency", .rspan 2 "Entity", .rspan 2 "Payment",
   .cspan 5 "Short Term (Up to 3 Months)", .cspan 5 "Long Term (more than 3 Months) ",
   .rspan 2 "Status", .rspan 2 "Action"]

/-- Row 2 of the Projects header, structured. -/
def projectsRow2 : List HeaderCell :=
  [.plain "Band 0", .plain "Band 1", .plain "Band 2", .plain "Band 3", .plain "Band 4",
   .plain "Band 0", .plain "Band 1", .plain "Band 2", .plain "Band 3", .plain "Band 4"]

/-- Row 1 of the Dispatch header, structured. -/
def dispatchRow1 : List HeaderCell :=
  [.rspan 2 "#", .rspan 2 "Customer", .rspan 2 "Region", .rspan 2 "Country",
   .rspan 2 "Supplier", .rspan 2 "Currency", .rspan 2 "Entity", .rspan 2 "Payment",
   .cspan 6 "Dispatch Tickets (incident) ", .cspan 3 "Dispatch Ticket (IMAC) ",
   .rspan 2 "Status", .rspan 2 "Action"]

/-- Row 2 of the Dispatch header, structured. -/
def dispatchRow2 : List HeaderCell :=
  [.plain "4 Hours", .plain "SBD", .plain "NBD", .plain "2 BD", .plain "3 BD",
   .plain "Additional Hour", .plain "2BD", .plain "3 BD", .plain "4 BD"]

/-- Row 1 of the Scheduled header, structured. -/
def scheduledRow1 : List HeaderCell :=
  [.rspan 2 "#", .rspan 2 "Customer", .rspan 2 "Region", .rspan 2 "Country",
   .rspan 2 "Supplier", .rspan 2 "Currency", .rspan 2 "Entity", .rspan 2 "Payment",
   .cspan 3 "Full Day Visit (8hrs)", .cspan 3 "1/2 Day Visit (4hrs) ",
   .rspan 2 "Status", .rspan 2 "Action"]

/-- Row 2 of the Scheduled header, structured. -/
def scheduledRow2 : List HeaderCell :=
  [.plain "Band 0", .plain "Band 1", .plain "Band 2",
   .plain "Band 0", .plain "Band 1", .plain "Band 2"]

/-- Row 1 of the Dedicated header, structured. -/
def dedicatedRow1 : List HeaderCell :=
  [.rspan 2 "#", .rspan 2 "Customer", .rspan 2 "Region", .rspan 2 "Country",
   .rspan 2 "Supplier", .rspan 2 "Currency", .rspan 2 "Entity", .rspan 2 "Payment",
   .cspan 2 "Band 0", .cspan 2 "Band 1", .cspan 2 "Band 2", .cspan 2 "Band 3",
   .cspan 2 "Band 4", .rspan 2 "Status", .rspan 2 "Action"]

/-- Row 2 of the Dedicated header, structured. -/
def dedicatedRow2 : List HeaderCell :=
  [.plain "With", .plain "Without", .plain "With", .plain "Without",
   .plain "With", .plain "Without", .plain "With", .plain "Without",
   .plain "With", .plain "Without"]

/-- One console log entry: `value v` models `console.log(val)` on the decoded
JSON value, `error e` models `console.log(e)` in the trailing `catch`. -/
inductive LogEntry where
  | value (v : String)
  | error (e : String)
deriving DecidableEq, Repr

/-- Outcome of the `fetch(url)` / `val.json()` pipeline for a given url:
the response body parses as valid JSON with decoded value `v` (`ok v`), the
fetch itself rejects (`networkError e`), or the body is not valid JSON so
`val.json()` rejects (`jsonError e`). -/
inductive FetchResult where
  | ok (v : String)
  | networkError (e : String)
  | jsonError (e : String)
deriving DecidableEq, Repr

/-- Log entries eventually produced by
`fetch(url).then(val => val.json()).then(val => console.log(val)).catch(e => console.log(e))`:
the decoded value is logged on success, and the trailing `catch` logs the
error whether the fetch rejected or the JSON parse rejected. -/
def fetchLogs : FetchResult → List LogEntry
  | .ok v => [.value v]
  | .networkError e => [.error e]
  | .jsonError e => [.error e]

/-- Observable outcome of one renderer call. `content` is the container
content after the call (`none` when the container reference was null, so
there is no container to hold content); `requests` lists the urls fetched;
`logs` lists the console entries the call eventually produces; `thrown` is
true when a runtime error escaped the synchronous call (assigning
`innerHTML` on a null container throws, and no renderer catches it). -/
structure Outcome where
  content : Option String
  requests : List String
  logs : List LogEntry
  thrown : Bool
deriving DecidableEq, Repr

/-- Markup assigned to the container: the source template
`<table>${header}<tbody></tbody></table>`. -/
def tableWrap (header : String) : String :=
  "<table>" ++ header ++ "<tbody></tbody></table>"

/-- Embedding of `renderProjectsRateCard(url, container)` (source lines 1–7):
its only statement assigns the fixed Projects markup to
`container.innerHTML`, so on a null container it throws before any effect. -/
def renderProjectsRateCard (url : String) (container : Option String) : Outcome :=
  match container with
  | none => { content := none, requests := [], logs := [], thrown := true }
  | some _ => { content := some (tableWrap projectsHeader), requests := [], logs := [],
                thrown := false }

/-- Embedding of `renderDispatchRateCard(url, container)` (source lines 9–15). -/
def renderDispatchRateCard (url : String) (container : Option String) : Outcome :=
  match container with
  | none => { content := none, requests := [], logs := [], thrown := true }
  | some _ => { content := some (tableWrap dispatchHeader), requests := [], logs := [],
                thrown := false }

/-- Embedding of `renderScheduledRateCard(url, container)` (source lines 17–23). -/
def renderScheduledRateCard (url : String) (container : Option String) : Outcome :=
  match container with
  | none => { content := none, requests := [], logs := [], thrown := true }
  | some _ => { content := some (tableWrap scheduledHeader), requests := [], logs := [],
                thrown := false }

/-- Embedding of `renderDedicatedRateCard(world, url, container)` (source
lines 26–32): the fetch is issued first, its promise chain later logs
according to `world url` on the event loop regardless of what the rest of
the call does; then the fixed Dedicated markup is assigned to
`container.innerHTML`, which throws on a null container. -/
def renderDedicatedRateCard (world : String → FetchResult) (url : String)
    (container : Option String) : Outcome :=
  match container with
  | none => { content := none, requests := [url], logs := fetchLogs (world url),
              thrown := true }
  | some _ => { content := some (tableWrap dedicatedHeader), requests := [url],
                logs := fetchLogs (world url), thrown := false }

theorem projectsHeader_struct : headerHtml projectsRow1 projectsRow2 = projectsHeader := by decide

theorem dispatchHeader_struct : headerHtml dispatchRow1 dispatchRow2 = dispatchHeader := by decide

theorem scheduledHeader_struct : headerHtml scheduledRow1 scheduledRow2 = scheduledHeader := by decide

theorem dedicatedHeader_struct : headerHtml dedicatedRow1 dedicatedRow2 = dedicatedHeader := by decide

/-- Cells of a row that carry a `colspan`, as (span, label) pairs in order. -/
def colspanGroups (cells : List HeaderCell) : List (Nat × String) :=
  cells.filterMap fun c => match c with
    | .cspan n label => some (n, label)
    | _ => none

/-- C1: Column-alignment invariant. For each of the four renderers, the header
markup it writes serializes the structured rows (bridge equalities below), and
in that structure the sum of the colspan values of the row-1 cells carrying a
colspan equals the number of th cells in row 2: Projects 5+5 = 10, Dispatch
6+3 = 9, Scheduled 3+3 = 6, Dedicated 2+2+2+2+2 = 10. -/
theorem c1_column_alignment :
    headerHtml projectsRow1 projectsRow2 = projectsHeader ∧
    colspanSum projectsRow1 = 10 ∧ projectsRow2.length = 10 ∧
    headerHtml dispatchRow1 dispatchRow2 = dispatchHeader ∧
    colspanSum dispatchRow1 = 9 ∧ dispatchRow2.length = 9 ∧
    headerHtml scheduledRow1 scheduledRow2 = scheduledHeader ∧
    colspanSum scheduledRow1 = 6 ∧ scheduledRow2.length = 6 ∧
    headerHtml dedicatedRow1 dedicatedRow2 = dedicatedHeader ∧
    colspanSum dedicatedRow1 = 10 ∧ dedicatedRow2.length = 10 := by
  refine ⟨projectsHeader_struct, by decide, by decide, dispatchHeader_struct, by decide,
    by decide, scheduledHeader_struct, by decide, by decide, dedicatedHeader_struct,
    by decide, by decide⟩

/-- C2: For every container prior content and every url (and, for the
Dedicated variant, every fetch environment), each renderer leaves the
container content equal to `tableWrap (headerHtml row1 row2)` — by the
definitions of `tableWrap` and `headerHtml`, a string of the exact shape
`<table><thead>..two rows..</thead><tbody></tbody></table>` — independent of
the prior content, which is fully replaced. (The source functions return no
value; the model accordingly exposes only the effects.) -/
theorem c2_full_replacement (url prior : String) (world : String → FetchResult) :
    (renderProjectsRateCard url (some prior)).content =
      some (tableWrap (headerHtml projectsRow1 projectsRow2)) ∧
    (renderDispatchRateCard url (some prior)).content =
      some (tableWrap (headerHtml dispatchRow1 dispatchRow2)) ∧
    (renderScheduledRateCard url (some prior)).content =
      some (tableWrap (headerHtml scheduledRow1 scheduledRow2)) ∧
    (renderDedicatedRateCard world url (some prior)).content =
      some (tableWrap (headerHtml dedicatedRow1 dedicatedRow2)) := by
  refine ⟨?_, ?_, ?_, ?_⟩ <;>
    simp [renderProjectsRateCard, renderDispatchRateCard, renderScheduledRateCard,
      renderDedicatedRateCard, projectsHeader_struct, dispatchHeader_struct,
      scheduledHeader_struct, dedicatedHeader_struct]

/-- C3: Rendering the Scheduled category into an empty container leaves the
container holding a table (with empty tbody, per `tableWrap`) whose two header
rows are: the 8 generic rowspan-2 columns #, Customer, Region, Country,
Supplier, Currency, Entity, Payment, then a "Full Day Visit (8hrs)" group and
a "1/2 Day Visit (4hrs) " group (the source writes the half-day label with
"1/2") of colspan 3 each, then rowspan-2 Status and Action; row 2 holds
Band 0–Band 2 under each group. -/
theorem c3_scheduled_empty_container (url : String) :
    (renderScheduledRateCard url (some "")).content =
      some (tableWrap (headerHtml
        [.rspan 2 "#", .rspan 2 "Customer", .rspan 2 "Region", .rspan 2 "Country",
         .rspan 2 "Supplier", .rspan 2 "Currency", .rspan 2 "Entity", .rspan 2 "Payment",
         .cspan 3 "Full Day Visit (8hrs)", .cspan 3 "1/2 Day Visit (4hrs) ",
         .rspan 2 "Status", .rspan 2 "Action"]
        [.plain "Band 0", .plain "Band 1", .plain "Band 2",
         .plain "Band 0", .plain "Band 1", .plain "Band 2"])) := by
  have h : (renderScheduledRateCard url (some "")).content =
      some (tableWrap scheduledHeader) := rfl
  rw [h, ← scheduledHeader_struct]
  rfl

/-- C4: Exact labels and column counts. The Projects header's colspan groups
are exactly two groups of 5: "Short Term (Up to 3 Months)" and
"Long Term (more than 3 Months) " (the source labels carry the duration
annotations), over a row 2 of Band 0–Band 4 twice; the Dedicated header's
colspan groups are exactly five groups of 2, Band 0–Band 4, over a row 2 of
10 alternating With/Without sub-columns. The bridge equalities tie the
structured rows to the markup the renderers write. -/
theorem c4_labels_counts :
    colspanGroups projectsRow1 =
      [(5, "Short Term (Up to 3 Months)"), (5, "Long Term (more than 3 Months) ")] ∧
    projectsRow2 =
      [.plain "Band 0", .plain "Band 1", .plain "Band 2", .plain "Band 3", .plain "Band 4",
       .plain "Band 0", .plain "Band 1", .plain "Band 2", .plain "Band 3", .plain "Band 4"] ∧
    headerHtml projectsRow1 projectsRow2 = projectsHeader ∧
    colspanGroups dedicatedRow1 =
      [(2, "Band 0"), (2, "Band 1"), (2, "Band 2"), (2, "Band 3"), (2, "Band 4")] ∧
    dedicatedRow2 =
      [.plain "With", .plain "Without", .plain "With", .plain "Without",
       .plain "With", .plain "Without", .plain "With", .plain "Without",
       .plain "With", .plain "Without"] ∧
    dedicatedRow2.length = 10 ∧
    headerHtml dedicatedRow1 dedicatedRow2 = dedicatedHeader := by
  refine ⟨by decide, by decide, projectsHeader_struct, by decide, by decide, by decide,
    dedicatedHeader_struct⟩

/-- C5: For every fetch environment, url and (non-null) container: if the
fetch resolves to a response parsing as valid JSON with decoded value v, the
call logs exactly [value v] (so the value once and no error); if the fetch
rejects or the body is not valid JSON, it logs exactly [error e] (so an error
once and no value); and in all three cases no exception escapes the call. -/
theorem c5_dedicated_fetch_logging (world : String → FetchResult) (url container : String) :
    (∀ v, world url = .ok v →
      (renderDedicatedRateCard world url (some container)).logs = [.value v] ∧
      (renderDedicatedRateCard world url (some container)).thrown = false) ∧
    (∀ e, world url = .networkError e →
      (renderDedicatedRateCard world url (some container)).logs = [.error e] ∧
      (renderDedicatedRateCard world url (some container)).thrown = false) ∧
    (∀ e, world url = .jsonError e →
      (renderDedicatedRateCard world url (some container)).logs = [.error e] ∧
      (renderDedicatedRateCard world url (some container)).thrown = false) := by
  refine ⟨fun v h => ⟨?_, rfl⟩, fun e h => ⟨?_, rfl⟩, fun e h => ⟨?_, rfl⟩⟩ <;>
    simp [renderDedicatedRateCard, fetchLogs, h]

/-- Witness for C5 at concrete environments: an always-ok fetch logs the
decoded value once, an always-failing fetch logs the error once. -/
theorem c5_dedicated_fetch_logging_witness :
    (renderDedicatedRateCard (fun _ => .ok "42") "u" (some "")).logs =
      [.value "42"] ∧
    (renderDedicatedRateCard (fun _ => .networkError "down") "u" (some "")).logs =
      [.error "down"] :=
  ⟨((c5_dedicated_fetch_logging (fun _ => .ok "42") "u" "").1 "42" rfl).1,
   ((c5_dedicated_fetch_logging (fun _ => .networkError "down") "u" "").2.1 "down" rfl).1⟩

/-- C6: Idempotence. For each renderer, if a call on any prior content leaves
the container holding c, then a second identical call on that container
leaves it holding the same c: the second call's written output equals the
first call's, with no accumulation of markup. -/
theorem c6_idempotent (url prior c : String) (world : String → FetchResult) :
    ((renderProjectsRateCard url (some prior)).content = some c →
      (renderProjectsRateCard url (some c)).content = some c) ∧
    ((renderDispatchRateCard url (some prior)).content = some c →
      (renderDispatchRateCard url (some c)).content = some c) ∧
    ((renderScheduledRateCard url (some prior)).content = some c →
      (renderScheduledRateCard url (some c)).content = some c) ∧
    ((renderDedicatedRateCard world url (some prior)).content = some c →
      (renderDedicatedRateCard world url (some c)).content = some c) :=
  ⟨fun h => h, fun h => h, fun h => h, fun h => h⟩

/-- Witness for C6 at a concrete input: rendering Projects over its own
output leaves the same content. -/
theorem c6_idempotent_witness :
    (renderProjectsRateCard "u" (some (tableWrap projectsHeader))).content =
      some (tableWrap projectsHeader) :=
  (c6_idempotent "u" "old" (tableWrap projectsHeader) (fun _ => .ok "")).1 rfl

/-- C7: The fetch result never reaches the rendered output. For every fetch
environment, url and prior content, `renderDedicatedRateCard` writes the same
fixed Dedicated header table with an empty body; across any two environments,
urls and prior contents, content, request count and thrown status agree —
only the diagnostic log depends on the fetch outcome, and no rows are
populated. -/
theorem c7_fetch_noninterference (world1 world2 : String → FetchResult)
    (url1 url2 prior1 prior2 : String) :
    (renderDedicatedRateCard world1 url1 (some prior1)).content =
      some (tableWrap (headerHtml dedicatedRow1 dedicatedRow2)) ∧
    (renderDedicatedRateCard world1 url1 (some prior1)).content =
      (renderDedicatedRateCard world2 url2 (some prior2)).content ∧
    (renderDedicatedRateCard world1 url1 (some prior1)).requests.length =
      (renderDedicatedRateCard world2 url2 (some prior2)).requests.length ∧
    (renderDedicatedRateCard world1 url1 (some prior1)).thrown =
      (renderDedicatedRateCard world2 url2 (some prior2)).thrown := by
  refine ⟨?_, rfl, rfl, rfl⟩
  simp [renderDedicatedRateCard, dedicatedHeader_struct]

/-- C8: The resource locator is used only by the Dedicated variant. For every
container (null included) and every pair of urls, each of the other three
renderers produces exactly the same outcome — container content, network
requests (none) and log output (none) — with either url. -/
theorem c8_url_unused (u1 u2 : String) (container : Option String) :
    renderProjectsRateCard u1 container = renderProjectsRateCard u2 container ∧
    (renderProjectsRateCard u1 container).requests = [] ∧
    (renderProjectsRateCard u1 container).logs = [] ∧
    renderDispatchRateCard u1 container = renderDispatchRateCard u2 container ∧
    (renderDispatchRateCard u1 container).requests = [] ∧
    (renderDispatchRateCard u1 container).logs = [] ∧
    renderScheduledRateCard u1 container = renderScheduledRateCard u2 container ∧
    (renderScheduledRateCard u1 container).requests = [] ∧
    (renderScheduledRateCard u1 container).logs = [] := by
  cases container <;> exact ⟨rfl, rfl, rfl, rfl, rfl, rfl, rfl, rfl, rfl⟩

/-- C9: Passing a null container to any of the four renderers makes the call
fail with a runtime error that no renderer catches (the innerHTML assignment
on the missing container throws), and no content is written. -/
theorem c9_null_container (url : String) (world : String → FetchResult) :
    (renderProjectsRateCard url none).thrown = true ∧
    (renderProjectsRateCard url none).content = none ∧
    (renderDispatchRateCard url none).thrown = true ∧
    (renderDispatchRateCard url none).content = none ∧
    (renderScheduledRateCard url none).thrown = true ∧
    (renderScheduledRateCard url none).content = none ∧
    (renderDedicatedRateCard world url none).thrown = true ∧
    (renderDedicatedRateCard world url none).content = none :=
  ⟨rfl, rfl, rfl, rfl, rfl, rfl, rfl, rfl⟩

/-- C10: The markup each renderer writes is a fixed per-category constant with
no interpolation of either argument: for every pair of urls and prior
contents (and fetch environments for Dedicated), the written content is the
same closed constant `tableWrap` of the category header — byte-for-byte
identical — so the url is never interpolated into the HTML and no markup can
be injected through the url parameter. -/
theorem c10_no_interpolation (u1 u2 prior1 prior2 : String)
    (world1 world2 : String → FetchResult) :
    (renderProjectsRateCard u1 (some prior1)).content = some (tableWrap projectsHeader) ∧
    (renderProjectsRateCard u1 (some prior1)).content =
      (renderProjectsRateCard u2 (some prior2)).content ∧
    (renderDispatchRateCard u1 (some prior1)).content = some (tableWrap dispatchHeader) ∧
    (renderDispatchRateCard u1 (some prior1)).content =
      (renderDispatchRateCard u2 (some prior2)).content ∧
    (renderScheduledRateCard u1 (some prior1)).content = some (tableWrap scheduledHeader) ∧
    (renderScheduledRateCard u1 (some prior1)).content =
      (renderScheduledRateCard u2 (some prior2)).content ∧
    (renderDedicatedRateCard world1 u1 (some prior1)).content =
      some (tableWrap dedicatedHeader) ∧
    (renderDedicatedRateCard world1 u1 (some prior1)).content =
      (renderDedicatedRateCard world2 u2 (some prior2)).content :=
  ⟨rfl, rfl, rfl, rfl, rfl, rfl, rfl, rfl⟩

end RateCards
